import Mathlib

/-!
# Verification of the NEON halving-add reference layer (`neon_ref/arithmetic/vhadd.cpp`)

Shallow embedding of the 12 halving-add dispatch entries of the scalar NEON
reference model, together with proofs of the spec's claims about them.

The lane container types (`int8x8_t`, ..., `uint32x4_t`) live in the header
`vhadd.hpp`, which is not part of the given sources; they are modelled from the
spec's data model (§3, §4.1, §6): a fixed-length sequence of `laneCount` lanes,
each an integer exactly representable in `elementWidth` bits under the type's
signedness, with indexed access.  Signed lanes are modelled as `Int`, unsigned
lanes as `Nat`, with explicit in-range predicates and explicit wrap-around
(`% 2^w`) exactly where the C++ arithmetic performs a conversion or a
native-width operation.

C++ semantics embedded for the kernel expression `D[i] = (N[i] + M[i]) >> 1`:
* 8- and 16-bit lanes (signed or unsigned) undergo integer promotion to the
  32-bit `int`, so the sum is computed exactly (it can never overflow `int`);
* 32-bit signed lanes add as `int`: the sum wraps at 32 bits (two's-complement
  wrap-around, the behaviour of the emitted code);
* 32-bit unsigned lanes add as `unsigned int`: the sum wraps modulo `2^32`;
* `>> 1` is an arithmetic shift on a signed value, i.e. floor division by 2
  (`Int.fdiv`), and a logical shift on an unsigned value (`>>> 1`);
* the assignment back into the lane converts to the element type, i.e. wraps
  into the lane's `elementWidth`-bit domain (a no-op whenever the value is
  already in range).
-/

namespace pxl

/-- Reduce a `Nat` into the `w`-bit unsigned domain `[0, 2^w)`: the C++
conversion of an integer value to a `w`-bit unsigned lane type. -/
def wrapU (w : Nat) (x : Nat) : Nat := x % 2 ^ w

/-- Reduce an `Int` into the `w`-bit two's-complement signed domain
`[-2^(w-1), 2^(w-1))`: the C++ conversion of an integer value to a `w`-bit
signed lane type. -/
def wrapS (w : Nat) (x : Int) : Int := (x + 2 ^ (w - 1)) % 2 ^ w - 2 ^ (w - 1)

/-- In-range predicate for a `w`-bit signed lane value. -/
def SRange (w : Nat) (x : Int) : Prop := -(2 ^ (w - 1)) ≤ x ∧ x < 2 ^ (w - 1)

/-- In-range predicate for a `w`-bit unsigned lane value. -/
def URange (w : Nat) (x : Nat) : Prop := x < 2 ^ w

instance (w : Nat) (x : Int) : Decidable (SRange w x) := by
  unfold SRange; infer_instance

instance (w : Nat) (x : Nat) : Decidable (URange w x) := by
  unfold URange; infer_instance

theorem wrapS8_range (x : Int) : SRange 8 (wrapS 8 x) := by
  unfold SRange wrapS
  have h1 : (0 : Int) ≤ (x + 2 ^ (8 - 1)) % 2 ^ 8 := Int.emod_nonneg _ (by norm_num)
  have h2 : (x + 2 ^ (8 - 1)) % 2 ^ 8 < 2 ^ 8 := Int.emod_lt_of_pos _ (by norm_num)
  norm_num at h1 h2 ⊢
  omega

theorem wrapS16_range (x : Int) : SRange 16 (wrapS 16 x) := by
  unfold SRange wrapS
  have h1 : (0 : Int) ≤ (x + 2 ^ (16 - 1)) % 2 ^ 16 := Int.emod_nonneg _ (by norm_num)
  have h2 : (x + 2 ^ (16 - 1)) % 2 ^ 16 < 2 ^ 16 := Int.emod_lt_of_pos _ (by norm_num)
  norm_num at h1 h2 ⊢
  omega

theorem wrapS32_range (x : Int) : SRange 32 (wrapS 32 x) := by
  unfold SRange wrapS
  have h1 : (0 : Int) ≤ (x + 2 ^ (32 - 1)) % 2 ^ 32 := Int.emod_nonneg _ (by norm_num)
  have h2 : (x + 2 ^ (32 - 1)) % 2 ^ 32 < 2 ^ 32 := Int.emod_lt_of_pos _ (by norm_num)
  norm_num at h1 h2 ⊢
  omega

theorem wrapS_eq_of_range (w : Nat) (hw : w ≠ 0) (x : Int) (h : SRange w x) :
    wrapS w x = x := by
  unfold SRange at h
  unfold wrapS
  have hpow : (2 : Int) ^ w = 2 ^ (w - 1) * 2 := by
    rw [← pow_succ]
    congr 1
    omega
  rcases h with ⟨h1, h2⟩
  rw [hpow]
  have hnn : (0 : Int) ≤ x + 2 ^ (w - 1) := by omega
  have hlt : x + 2 ^ (w - 1) < 2 ^ (w - 1) * 2 := by omega
  rw [Int.emod_eq_of_lt hnn hlt]
  omega

theorem wrapU_lt (w : Nat) (x : Nat) : URange w (wrapU w x) :=
  Nat.mod_lt _ (Nat.pos_pow_of_pos w (by norm_num))

theorem wrapU_eq_of_lt (w : Nat) (x : Nat) (h : URange w x) : wrapU w x = x :=
  Nat.mod_eq_of_lt h

/-- The local state of one dispatch entry's body: the result register `D` being
filled in by the loop, and the two by-value operand copies `N` and `M`. -/
structure VState (n : Nat) (α : Type) where
  D : Fin n → α
  N : Fin n → α
  M : Fin n → α

/-- One iteration of the dispatch loop: `D[i] = kern(N[i], M[i])`; `N` and `M`
are only read. -/
def vstep {n : Nat} {α : Type} (kern : α → α → α) (st : VState n α) (i : Fin n) :
    VState n α :=
  ⟨Function.update st.D i (kern (st.N i) (st.M i)), st.N, st.M⟩

/-- The dispatch loop `for (int i=0; i<n; i++) D[i] = kern(N[i], M[i]);`,
run over an explicit list of loop indices. -/
def vloopList {n : Nat} {α : Type} (kern : α → α → α) (st : VState n α)
    (l : List (Fin n)) : VState n α :=
  List.foldl (vstep kern) st l

/-- The full dispatch loop, indices `0, 1, ..., n-1` in order. -/
def vloop {n : Nat} {α : Type} (kern : α → α → α) (st : VState n α) : VState n α :=
  vloopList kern st (List.finRange n)

theorem vloopList_N {n : Nat} {α : Type} (kern : α → α → α) (l : List (Fin n)) :
    ∀ st : VState n α, (vloopList kern st l).N = st.N := by
  induction l with
  | nil => intro st; rfl
  | cons a t ih =>
    intro st
    show (vloopList kern (vstep kern st a) t).N = st.N
    rw [ih (vstep kern st a)]
    rfl

theorem vloopList_M {n : Nat} {α : Type} (kern : α → α → α) (l : List (Fin n)) :
    ∀ st : VState n α, (vloopList kern st l).M = st.M := by
  induction l with
  | nil => intro st; rfl
  | cons a t ih =>
    intro st
    show (vloopList kern (vstep kern st a) t).M = st.M
    rw [ih (vstep kern st a)]
    rfl

theorem vloopList_D {n : Nat} {α : Type} (kern : α → α → α) (l : List (Fin n)) :
    ∀ (st : VState n α) (i : Fin n),
      (vloopList kern st l).D i =
        if i ∈ l then kern (st.N i) (st.M i) else st.D i := by
  induction l with
  | nil => intro st i; simp [vloopList]
  | cons a t ih =>
    intro st i
    show (vloopList kern (vstep kern st a) t).D i = _
    rw [ih (vstep kern st a) i]
    by_cases hit : i ∈ t
    · simp [hit, vstep, List.mem_cons]
    · by_cases hia : i = a
      · subst hia
        simp [hit, vstep, Function.update_apply, List.mem_cons]
      · simp [hit, hia, vstep, Function.update_apply, List.mem_cons]

theorem vloop_D {n : Nat} {α : Type} (kern : α → α → α) (st : VState n α)
    (i : Fin n) : (vloop kern st).D i = kern (st.N i) (st.M i) := by
  rw [vloop, vloopList_D kern (List.finRange n) st i]
  simp [List.mem_finRange]

theorem vloop_N {n : Nat} {α : Type} (kern : α → α → α) (st : VState n α) :
    (vloop kern st).N = st.N :=
  vloopList_N kern (List.finRange n) st

theorem vloop_M {n : Nat} {α : Type} (kern : α → α → α) (st : VState n α) :
    (vloop kern st).M = st.M :=
  vloopList_M kern (List.finRange n) st

/-!
## Lane vector types

Modelled from the spec: the Lane Vector container types declared in the missing
header `vhadd.hpp` (spec §3, §4.1, §6): a fixed-length ordered sequence of
`laneCount = vectorWidth / elementWidth` lanes addressable by index, each lane
an integer exactly representable in `elementWidth` bits under the type's
signedness.  Signed lanes are `Int`, unsigned lanes are `Nat`; the in-range
invariant is the predicate `SRange` / `URange` at the element width.
-/

abbrev int8x8_t := Fin 8 → Int
abbrev int16x4_t := Fin 4 → Int
abbrev int32x2_t := Fin 2 → Int
abbrev uint8x8_t := Fin 8 → Nat
abbrev uint16x4_t := Fin 4 → Nat
abbrev uint32x2_t := Fin 2 → Nat
abbrev int8x16_t := Fin 16 → Int
abbrev int16x8_t := Fin 8 → Int
abbrev int32x4_t := Fin 4 → Int
abbrev uint8x16_t := Fin 16 → Nat
abbrev uint16x8_t := Fin 8 → Nat
abbrev uint32x4_t := Fin 4 → Nat

/-- A lane vector with every lane equal to `x` (a literal-value construction,
spec §4.1). -/
def constVec (n : Nat) {α : Type} (x : α) : Fin n → α := fun _ => x

/-!
## Element-level kernels

Each is the C++ expression `(N[i] + M[i]) >> 1` followed by the assignment
conversion into the element type, at one (elementWidth, signedness) domain.
-/

/-- `(a + b) >> 1` on `int8_t` lanes: both operands promote to `int`, so the
sum (within `[-256, 254]`) is exact; `>> 1` is an arithmetic shift, i.e. floor
division by 2; the assignment converts back to `int8_t` (`wrapS 8`). -/
def hadd_s8_elem (a b : Int) : Int := wrapS 8 (Int.fdiv (a + b) 2)

/-- `(a + b) >> 1` on `int16_t` lanes: operands promote to `int`, the sum is
exact, arithmetic shift, conversion back to `int16_t`. -/
def hadd_s16_elem (a b : Int) : Int := wrapS 16 (Int.fdiv (a + b) 2)

/-- `(a + b) >> 1` on `int32_t` lanes: the sum is computed in `int` itself, so
it wraps at 32 bits (two's-complement wrap-around of the signed overflow);
then arithmetic shift and conversion back to `int32_t`. -/
def hadd_s32_elem (a b : Int) : Int := wrapS 32 (Int.fdiv (wrapS 32 (a + b)) 2)

/-- `(a + b) >> 1` on `uint8_t` lanes: both operands promote to (signed) `int`,
so the sum (at most 510) is exact; `>> 1` on the non-negative value is a
logical shift; the assignment converts back to `uint8_t` (`wrapU 8`). -/
def hadd_u8_elem (a b : Nat) : Nat := wrapU 8 ((a + b) >>> 1)

/-- `(a + b) >> 1` on `uint16_t` lanes: operands promote to `int`, the sum is
exact, logical shift, conversion back to `uint16_t`. -/
def hadd_u16_elem (a b : Nat) : Nat := wrapU 16 ((a + b) >>> 1)

/-- `(a + b) >> 1` on `uint32_t` lanes: the sum is computed in `unsigned int`
itself, so it wraps modulo `2^32`; then logical shift and conversion back to
`uint32_t`. -/
def hadd_u32_elem (a b : Nat) : Nat := wrapU 32 (((a + b) % 2 ^ 32) >>> 1)

/-!
## The 12 dispatch entries of `vhadd.cpp`

Each `..._run` is the body of the corresponding C++ function: a local result
register `D` (value-initialised to 0 in the model; the C++ local is
uninitialised but every lane is written before being read), the two by-value
operand copies, and the per-lane loop.  The entry itself returns `D`.
-/

def vhadd_s8_run (N M : int8x8_t) : VState 8 Int :=
  vloop hadd_s8_elem ⟨constVec 8 0, N, M⟩

def vhadd_s8 (N M : int8x8_t) : int8x8_t := (vhadd_s8_run N M).D

def vhadd_s16_run (N M : int16x4_t) : VState 4 Int :=
  vloop hadd_s16_elem ⟨constVec 4 0, N, M⟩

def vhadd_s16 (N M : int16x4_t) : int16x4_t := (vhadd_s16_run N M).D

def vhadd_s32_run (N M : int32x2_t) : VState 2 Int :=
  vloop hadd_s32_elem ⟨constVec 2 0, N, M⟩

def vhadd_s32 (N M : int32x2_t) : int32x2_t := (vhadd_s32_run N M).D

def vhadd_u8_run (N M : uint8x8_t) : VState 8 Nat :=
  vloop hadd_u8_elem ⟨constVec 8 0, N, M⟩

def vhadd_u8 (N M : uint8x8_t) : uint8x8_t := (vhadd_u8_run N M).D

def vhadd_u16_run (N M : uint16x4_t) : VState 4 Nat :=
  vloop hadd_u16_elem ⟨constVec 4 0, N, M⟩

def vhadd_u16 (N M : uint16x4_t) : uint16x4_t := (vhadd_u16_run N M).D

def vhadd_u32_run (N M : uint32x2_t) : VState 2 Nat :=
  vloop hadd_u32_elem ⟨constVec 2 0, N, M⟩

def vhadd_u32 (N M : uint32x2_t) : uint32x2_t := (vhadd_u32_run N M).D

def vhaddq_s8_run (N M : int8x16_t) : VState 16 Int :=
  vloop hadd_s8_elem ⟨constVec 16 0, N, M⟩

def vhaddq_s8 (N M : int8x16_t) : int8x16_t := (vhaddq_s8_run N M).D

def vhaddq_s16_run (N M : int16x8_t) : VState 8 Int :=
  vloop hadd_s16_elem ⟨constVec 8 0, N, M⟩

def vhaddq_s16 (N M : int16x8_t) : int16x8_t := (vhaddq_s16_run N M).D

def vhaddq_s32_run (N M : int32x4_t) : VState 4 Int :=
  vloop hadd_s32_elem ⟨constVec 4 0, N, M⟩

def vhaddq_s32 (N M : int32x4_t) : int32x4_t := (vhaddq_s32_run N M).D

def vhaddq_u8_run (N M : uint8x16_t) : VState 16 Nat :=
  vloop hadd_u8_elem ⟨constVec 16 0, N, M⟩

def vhaddq_u8 (N M : uint8x16_t) : uint8x16_t := (vhaddq_u8_run N M).D

def vhaddq_u16_run (N M : uint16x8_t) : VState 8 Nat :=
  vloop hadd_u16_elem ⟨constVec 8 0, N, M⟩

def vhaddq_u16 (N M : uint16x8_t) : uint16x8_t := (vhaddq_u16_run N M).D

def vhaddq_u32_run (N M : uint32x4_t) : VState 4 Nat :=
  vloop hadd_u32_elem ⟨constVec 4 0, N, M⟩

def vhaddq_u32 (N M : uint32x4_t) : uint32x4_t := (vhaddq_u32_run N M).D

/-!
## Per-lane closed forms of the 12 entries
-/

theorem vhadd_s8_lane (N M : int8x8_t) (i : Fin 8) :
    vhadd_s8 N M i = hadd_s8_elem (N i) (M i) :=
  vloop_D hadd_s8_elem ⟨constVec 8 0, N, M⟩ i

theorem vhadd_s16_lane (N M : int16x4_t) (i : Fin 4) :
    vhadd_s16 N M i = hadd_s16_elem (N i) (M i) :=
  vloop_D hadd_s16_elem ⟨constVec 4 0, N, M⟩ i

theorem vhadd_s32_lane (N M : int32x2_t) (i : Fin 2) :
    vhadd_s32 N M i = hadd_s32_elem (N i) (M i) :=
  vloop_D hadd_s32_elem ⟨constVec 2 0, N, M⟩ i

theorem vhadd_u8_lane (N M : uint8x8_t) (i : Fin 8) :
    vhadd_u8 N M i = hadd_u8_elem (N i) (M i) :=
  vloop_D hadd_u8_elem ⟨constVec 8 0, N, M⟩ i

theorem vhadd_u16_lane (N M : uint16x4_t) (i : Fin 4) :
    vhadd_u16 N M i = hadd_u16_elem (N i) (M i) :=
  vloop_D hadd_u16_elem ⟨constVec 4 0, N, M⟩ i

theorem vhadd_u32_lane (N M : uint32x2_t) (i : Fin 2) :
    vhadd_u32 N M i = hadd_u32_elem (N i) (M i) :=
  vloop_D hadd_u32_elem ⟨constVec 2 0, N, M⟩ i

theorem vhaddq_s8_lane (N M : int8x16_t) (i : Fin 16) :
    vhaddq_s8 N M i = hadd_s8_elem (N i) (M i) :=
  vloop_D hadd_s8_elem ⟨constVec 16 0, N, M⟩ i

theorem vhaddq_s16_lane (N M : int16x8_t) (i : Fin 8) :
    vhaddq_s16 N M i = hadd_s16_elem (N i) (M i) :=
  vloop_D hadd_s16_elem ⟨constVec 8 0, N, M⟩ i

theorem vhaddq_s32_lane (N M : int32x4_t) (i : Fin 4) :
    vhaddq_s32 N M i = hadd_s32_elem (N i) (M i) :=
  vloop_D hadd_s32_elem ⟨constVec 4 0, N, M⟩ i

theorem vhaddq_u8_lane (N M : uint8x16_t) (i : Fin 16) :
    vhaddq_u8 N M i = hadd_u8_elem (N i) (M i) :=
  vloop_D hadd_u8_elem ⟨constVec 16 0, N, M⟩ i

theorem vhaddq_u16_lane (N M : uint16x8_t) (i : Fin 8) :
    vhaddq_u16 N M i = hadd_u16_elem (N i) (M i) :=
  vloop_D hadd_u16_elem ⟨constVec 8 0, N, M⟩ i

theorem vhaddq_u32_lane (N M : uint32x4_t) (i : Fin 4) :
    vhaddq_u32 N M i = hadd_u32_elem (N i) (M i) :=
  vloop_D hadd_u32_elem ⟨constVec 4 0, N, M⟩ i

/-!
## Element-level facts
-/

theorem hadd_s8_elem_range (a b : Int) : SRange 8 (hadd_s8_elem a b) :=
  wrapS8_range _

theorem hadd_s16_elem_range (a b : Int) : SRange 16 (hadd_s16_elem a b) :=
  wrapS16_range _

theorem hadd_s32_elem_range (a b : Int) : SRange 32 (hadd_s32_elem a b) :=
  wrapS32_range _

theorem hadd_u8_elem_range (a b : Nat) : URange 8 (hadd_u8_elem a b) :=
  wrapU_lt _ _

theorem hadd_u16_elem_range (a b : Nat) : URange 16 (hadd_u16_elem a b) :=
  wrapU_lt _ _

theorem hadd_u32_elem_range (a b : Nat) : URange 32 (hadd_u32_elem a b) :=
  wrapU_lt _ _

/-- On in-range `int8_t` lanes the kernel is the exact floor of `(a + b) / 2`:
the promoted intermediate sum has at least 9 bits, so it never overflows. -/
theorem hadd_s8_elem_eq_fdiv (a b : Int) (ha : SRange 8 a) (hb : SRange 8 b) :
    hadd_s8_elem a b = Int.fdiv (a + b) 2 := by
  unfold hadd_s8_elem
  apply wrapS_eq_of_range 8 (by norm_num)
  rw [Int.fdiv_eq_ediv _ (by norm_num)]
  unfold SRange at ha hb ⊢
  norm_num at ha hb ⊢
  omega

/-- On in-range `int16_t` lanes the kernel is the exact floor of `(a + b) / 2`. -/
theorem hadd_s16_elem_eq_fdiv (a b : Int) (ha : SRange 16 a) (hb : SRange 16 b) :
    hadd_s16_elem a b = Int.fdiv (a + b) 2 := by
  unfold hadd_s16_elem
  apply wrapS_eq_of_range 16 (by norm_num)
  rw [Int.fdiv_eq_ediv _ (by norm_num)]
  unfold SRange at ha hb ⊢
  norm_num at ha hb ⊢
  omega

/-- On in-range `uint8_t` lanes the kernel is the exact `(a + b) / 2`. -/
theorem hadd_u8_elem_eq_div (a b : Nat) (ha : URange 8 a) (hb : URange 8 b) :
    hadd_u8_elem a b = (a + b) / 2 := by
  unfold hadd_u8_elem
  rw [Nat.shiftRight_eq_div_pow]
  apply wrapU_eq_of_lt
  unfold URange at ha hb ⊢
  norm_num
  omega

/-- On in-range `uint16_t` lanes the kernel is the exact `(a + b) / 2`. -/
theorem hadd_u16_elem_eq_div (a b : Nat) (ha : URange 16 a) (hb : URange 16 b) :
    hadd_u16_elem a b = (a + b) / 2 := by
  unfold hadd_u16_elem
  rw [Nat.shiftRight_eq_div_pow]
  apply wrapU_eq_of_lt
  unfold URange at ha hb ⊢
  norm_num
  omega

/-- The `uint32_t` kernel in closed form: the intermediate sum wraps modulo
`2^32` in the lane's own width before the logical shift. -/
theorem hadd_u32_elem_eq (a b : Nat) :
    hadd_u32_elem a b = ((a + b) % 2 ^ 32) / 2 := by
  unfold hadd_u32_elem wrapU
  rw [Nat.shiftRight_eq_div_pow]
  norm_num
  omega

theorem hadd_s8_elem_comm (a b : Int) : hadd_s8_elem a b = hadd_s8_elem b a := by
  unfold hadd_s8_elem
  rw [Int.add_comm]

theorem hadd_s16_elem_comm (a b : Int) : hadd_s16_elem a b = hadd_s16_elem b a := by
  unfold hadd_s16_elem
  rw [Int.add_comm]

theorem hadd_s32_elem_comm (a b : Int) : hadd_s32_elem a b = hadd_s32_elem b a := by
  unfold hadd_s32_elem
  rw [Int.add_comm]

theorem hadd_u8_elem_comm (a b : Nat) : hadd_u8_elem a b = hadd_u8_elem b a := by
  unfold hadd_u8_elem
  rw [Nat.add_comm]

theorem hadd_u16_elem_comm (a b : Nat) : hadd_u16_elem a b = hadd_u16_elem b a := by
  unfold hadd_u16_elem
  rw [Nat.add_comm]

theorem hadd_u32_elem_comm (a b : Nat) : hadd_u32_elem a b = hadd_u32_elem b a := by
  unfold hadd_u32_elem
  rw [Nat.add_comm]

/-!
## Claims
-/

/-- C1: the claim asserts that all 12 entries, the 32-bit ones included,
compute `(a + b) >> 1` with an intermediate sum of at least `elementWidth + 1`
bits, losing nothing to overflow.  The code is wrong for the 32-bit entries:
their intermediate sum is computed in the lane's own 32-bit width.  At
`N[0] = M[0] = 2^32 - 1` (in-domain for `uint32_t`), `vhadd_u32` returns
`2^31 - 1 = 2147483647`, while the overflow-free halving required by the claim
(and by the hardware semantics the layer exists to reproduce) is
`(2^32 - 1 + 2^32 - 1) / 2 = 2^32 - 1 = 4294967295`. -/
theorem C1_vhadd_u32_wrap_at_max :
    vhadd_u32 (constVec 2 4294967295) (constVec 2 4294967295) 0 = 2147483647 ∧
      (4294967295 + 4294967295) / 2 = 4294967295 := by
  constructor
  · decide
  · decide

/-- C2: every entry maps in-domain input vectors to a vector whose every lane
is again in-domain for the entry's (elementWidth, signedness) numeric domain;
as a total function it produces exactly one such result. -/
theorem C2_lane_range_closure :
    (∀ N M : int8x8_t, (∀ i, SRange 8 (N i)) → (∀ i, SRange 8 (M i)) →
      ∀ i, SRange 8 (vhadd_s8 N M i)) ∧
    (∀ N M : int16x4_t, (∀ i, SRange 16 (N i)) → (∀ i, SRange 16 (M i)) →
      ∀ i, SRange 16 (vhadd_s16 N M i)) ∧
    (∀ N M : int32x2_t, (∀ i, SRange 32 (N i)) → (∀ i, SRange 32 (M i)) →
      ∀ i, SRange 32 (vhadd_s32 N M i)) ∧
    (∀ N M : uint8x8_t, (∀ i, URange 8 (N i)) → (∀ i, URange 8 (M i)) →
      ∀ i, URange 8 (vhadd_u8 N M i)) ∧
    (∀ N M : uint16x4_t, (∀ i, URange 16 (N i)) → (∀ i, URange 16 (M i)) →
      ∀ i, URange 16 (vhadd_u16 N M i)) ∧
    (∀ N M : uint32x2_t, (∀ i, URange 32 (N i)) → (∀ i, URange 32 (M i)) →
      ∀ i, URange 32 (vhadd_u32 N M i)) ∧
    (∀ N M : int8x16_t, (∀ i, SRange 8 (N i)) → (∀ i, SRange 8 (M i)) →
      ∀ i, SRange 8 (vhaddq_s8 N M i)) ∧
    (∀ N M : int16x8_t, (∀ i, SRange 16 (N i)) → (∀ i, SRange 16 (M i)) →
      ∀ i, SRange 16 (vhaddq_s16 N M i)) ∧
    (∀ N M : int32x4_t, (∀ i, SRange 32 (N i)) → (∀ i, SRange 32 (M i)) →
      ∀ i, SRange 32 (vhaddq_s32 N M i)) ∧
    (∀ N M : uint8x16_t, (∀ i, URange 8 (N i)) → (∀ i, URange 8 (M i)) →
      ∀ i, URange 8 (vhaddq_u8 N M i)) ∧
    (∀ N M : uint16x8_t, (∀ i, URange 16 (N i)) → (∀ i, URange 16 (M i)) →
      ∀ i, URange 16 (vhaddq_u16 N M i)) ∧
    (∀ N M : uint32x4_t, (∀ i, URange 32 (N i)) → (∀ i, URange 32 (M i)) →
      ∀ i, URange 32 (vhaddq_u32 N M i)) := by
  refine ⟨?_, ?_, ?_, ?_, ?_, ?_, ?_, ?_, ?_, ?_, ?_, ?_⟩ <;>
    intro N M _ _ i
  · rw [vhadd_s8_lane]; exact hadd_s8_elem_range _ _
  · rw [vhadd_s16_lane]; exact hadd_s16_elem_range _ _
  · rw [vhadd_s32_lane]; exact hadd_s32_elem_range _ _
  · rw [vhadd_u8_lane]; exact hadd_u8_elem_range _ _
  · rw [vhadd_u16_lane]; exact hadd_u16_elem_range _ _
  · rw [vhadd_u32_lane]; exact hadd_u32_elem_range _ _
  · rw [vhaddq_s8_lane]; exact hadd_s8_elem_range _ _
  · rw [vhaddq_s16_lane]; exact hadd_s16_elem_range _ _
  · rw [vhaddq_s32_lane]; exact hadd_s32_elem_range _ _
  · rw [vhaddq_u8_lane]; exact hadd_u8_elem_range _ _
  · rw [vhaddq_u16_lane]; exact hadd_u16_elem_range _ _
  · rw [vhaddq_u32_lane]; exact hadd_u32_elem_range _ _

/-- Witness for C2: each of the 12 range-closure statements instantiated at
concrete in-domain vectors. -/
theorem C2_lane_range_closure_witness :
    SRange 8 (vhadd_s8 (constVec 8 5) (constVec 8 (-3)) 0) ∧
    SRange 16 (vhadd_s16 (constVec 4 1000) (constVec 4 (-7)) 0) ∧
    SRange 32 (vhadd_s32 (constVec 2 100000) (constVec 2 (-1)) 0) ∧
    URange 8 (vhadd_u8 (constVec 8 200) (constVec 8 55) 0) ∧
    URange 16 (vhadd_u16 (constVec 4 60000) (constVec 4 5) 0) ∧
    URange 32 (vhadd_u32 (constVec 2 4000000000) (constVec 2 1) 0) ∧
    SRange 8 (vhaddq_s8 (constVec 16 5) (constVec 16 (-3)) 0) ∧
    SRange 16 (vhaddq_s16 (constVec 8 1000) (constVec 8 (-7)) 0) ∧
    SRange 32 (vhaddq_s32 (constVec 4 100000) (constVec 4 (-1)) 0) ∧
    URange 8 (vhaddq_u8 (constVec 16 200) (constVec 16 55) 0) ∧
    URange 16 (vhaddq_u16 (constVec 8 60000) (constVec 8 5) 0) ∧
    URange 32 (vhaddq_u32 (constVec 4 4000000000) (constVec 4 1) 0) := by
  obtain ⟨h1, h2, h3, h4, h5, h6, h7, h8, h9, h10, h11, h12⟩ := C2_lane_range_closure
  exact ⟨h1 _ _ (by decide) (by decide) 0, h2 _ _ (by decide) (by decide) 0,
    h3 _ _ (by decide) (by decide) 0, h4 _ _ (by decide) (by decide) 0,
    h5 _ _ (by decide) (by decide) 0, h6 _ _ (by decide) (by decide) 0,
    h7 _ _ (by decide) (by decide) 0, h8 _ _ (by decide) (by decide) 0,
    h9 _ _ (by decide) (by decide) 0, h10 _ _ (by decide) (by decide) 0,
    h11 _ _ (by decide) (by decide) 0, h12 _ _ (by decide) (by decide) 0⟩

/-- C3: the signed 8-bit halving add truncates toward negative infinity: a
lane with `a = 1, b = 0` yields 0 (not 1), a lane with `a = -1, b = 0` yields
-1 (arithmetic shift, sign-extending), and in general an in-domain lane yields
the floor of `(a + b) / 2`, never a round-to-nearest result. -/
theorem C3_vhadd_s8_truncates :
    (∀ (N M : int8x8_t) (i : Fin 8), N i = 1 → M i = 0 → vhadd_s8 N M i = 0) ∧
    (∀ (N M : int8x8_t) (i : Fin 8), N i = -1 → M i = 0 → vhadd_s8 N M i = -1) ∧
    (∀ (N M : int8x8_t) (i : Fin 8), SRange 8 (N i) → SRange 8 (M i) →
      vhadd_s8 N M i = Int.fdiv (N i + M i) 2) := by
  refine ⟨?_, ?_, ?_⟩
  · intro N M i hN hM
    rw [vhadd_s8_lane, hN, hM]
    decide
  · intro N M i hN hM
    rw [vhadd_s8_lane, hN, hM]
    decide
  · intro N M i hN hM
    rw [vhadd_s8_lane]
    exact hadd_s8_elem_eq_fdiv _ _ hN hM

/-- Witness for C3: the three truncation statements instantiated at concrete
lanes. -/
theorem C3_vhadd_s8_truncates_witness :
    vhadd_s8 (constVec 8 1) (constVec 8 0) 0 = 0 ∧
    vhadd_s8 (constVec 8 (-1)) (constVec 8 0) 0 = -1 ∧
    vhadd_s8 (constVec 8 7) (constVec 8 (-2)) 0 = Int.fdiv (7 + -2) 2 := by
  obtain ⟨h1, h2, h3⟩ := C3_vhadd_s8_truncates
  exact ⟨h1 _ _ 0 rfl rfl, h2 _ _ 0 rfl rfl,
    h3 (constVec 8 7) (constVec 8 (-2)) 0 (by decide) (by decide)⟩

/-- C4: the unsigned 8-bit halving add computes `a = 255, b = 255 ↦ 255`: the
intermediate sum 510 is held without loss (the promoted intermediate is wider
than 8 bits) and shifted to 255.  An 8-bit wrapping intermediate would instead
give `wrapU 8 (wrapU 8 (255 + 255) >>> 1) = 127`. -/
theorem C4_vhadd_u8_no_overflow :
    (∀ (N M : uint8x8_t) (i : Fin 8), N i = 255 → M i = 255 →
      vhadd_u8 N M i = 255) ∧
    wrapU 8 (wrapU 8 (255 + 255) >>> 1) = 127 := by
  constructor
  · intro N M i hN hM
    rw [vhadd_u8_lane, hN, hM]
    decide
  · decide

/-- Witness for C4: the 255 + 255 statement instantiated at a concrete lane. -/
theorem C4_vhadd_u8_no_overflow_witness :
    constVec 8 255 (0 : Fin 8) = 255 ∧
      vhadd_u8 (constVec 8 255) (constVec 8 255) 0 = 255 :=
  ⟨rfl, C4_vhadd_u8_no_overflow.1 _ _ 0 rfl rfl⟩

/-- C5: the 128-bit signed 16-bit entry on constant vectors:
`vhaddq_s16 [2,2,2,2,2,2,2,2] [4,4,4,4,4,4,4,4]` has value 3 at every one of
the 8 lanes. -/
theorem C5_vhaddq_s16_width_scaling :
    ∀ i : Fin 8, vhaddq_s16 (constVec 8 2) (constVec 8 4) i = 3 := by
  decide

/-- C6 counterexample: the claim's final clause — mutating a single lane of
one input changes exactly that one result lane — is false.  Changing lane 0 of
the first `vhadd_s8` operand from 0 to 1 (with the other operand all zero)
changes the mutated input lane but leaves every result lane, lane 0 included,
unchanged: `(0 + 0) >> 1 = (1 + 0) >> 1 = 0`.  So the mutation changes zero
result lanes, not exactly one. -/
theorem C6_single_lane_mutation_counterexample :
    Function.update (constVec 8 (0 : Int)) (0 : Fin 8) 1 0 ≠ constVec 8 (0 : Int) 0 ∧
      vhadd_s8 (Function.update (constVec 8 (0 : Int)) (0 : Fin 8) 1) (constVec 8 0) =
        vhadd_s8 (constVec 8 0) (constVec 8 0) := by
  constructor
  · decide
  · funext i
    revert i
    decide

/-- C6 (amended): for every dispatch entry, the result at lane `i` depends
only on the two inputs' values at lane `i`: runs whose inputs agree at lane
`i` produce equal results at lane `i`; equivalently, mutating a single lane of
one input changes at most that one result lane. -/
theorem C6_lane_dependence :
    (∀ (N N' M M' : int8x8_t) (i : Fin 8), N i = N' i → M i = M' i →
      vhadd_s8 N M i = vhadd_s8 N' M' i) ∧
    (∀ (N N' M M' : int16x4_t) (i : Fin 4), N i = N' i → M i = M' i →
      vhadd_s16 N M i = vhadd_s16 N' M' i) ∧
    (∀ (N N' M M' : int32x2_t) (i : Fin 2), N i = N' i → M i = M' i →
      vhadd_s32 N M i = vhadd_s32 N' M' i) ∧
    (∀ (N N' M M' : uint8x8_t) (i : Fin 8), N i = N' i → M i = M' i →
      vhadd_u8 N M i = vhadd_u8 N' M' i) ∧
    (∀ (N N' M M' : uint16x4_t) (i : Fin 4), N i = N' i → M i = M' i →
      vhadd_u16 N M i = vhadd_u16 N' M' i) ∧
    (∀ (N N' M M' : uint32x2_t) (i : Fin 2), N i = N' i → M i = M' i →
      vhadd_u32 N M i = vhadd_u32 N' M' i) ∧
    (∀ (N N' M M' : int8x16_t) (i : Fin 16), N i = N' i → M i = M' i →
      vhaddq_s8 N M i = vhaddq_s8 N' M' i) ∧
    (∀ (N N' M M' : int16x8_t) (i : Fin 8), N i = N' i → M i = M' i →
      vhaddq_s16 N M i = vhaddq_s16 N' M' i) ∧
    (∀ (N N' M M' : int32x4_t) (i : Fin 4), N i = N' i → M i = M' i →
      vhaddq_s32 N M i = vhaddq_s32 N' M' i) ∧
    (∀ (N N' M M' : uint8x16_t) (i : Fin 16), N i = N' i → M i = M' i →
      vhaddq_u8 N M i = vhaddq_u8 N' M' i) ∧
    (∀ (N N' M M' : uint16x8_t) (i : Fin 8), N i = N' i → M i = M' i →
      vhaddq_u16 N M i = vhaddq_u16 N' M' i) ∧
    (∀ (N N' M M' : uint32x4_t) (i : Fin 4), N i = N' i → M i = M' i →
      vhaddq_u32 N M i = vhaddq_u32 N' M' i) := by
  refine ⟨?_, ?_, ?_, ?_, ?_, ?_, ?_, ?_, ?_, ?_, ?_, ?_⟩ <;>
    intro N N' M M' i hN hM
  · rw [vhadd_s8_lane, vhadd_s8_lane, hN, hM]
  · rw [vhadd_s16_lane, vhadd_s16_lane, hN, hM]
  · rw [vhadd_s32_lane, vhadd_s32_lane, hN, hM]
  · rw [vhadd_u8_lane, vhadd_u8_lane, hN, hM]
  · rw [vhadd_u16_lane, vhadd_u16_lane, hN, hM]
  · rw [vhadd_u32_lane, vhadd_u32_lane, hN, hM]
  · rw [vhaddq_s8_lane, vhaddq_s8_lane, hN, hM]
  · rw [vhaddq_s16_lane, vhaddq_s16_lane, hN, hM]
  · rw [vhaddq_s32_lane, vhaddq_s32_lane, hN, hM]
  · rw [vhaddq_u8_lane, vhaddq_u8_lane, hN, hM]
  · rw [vhaddq_u16_lane, vhaddq_u16_lane, hN, hM]
  · rw [vhaddq_u32_lane, vhaddq_u32_lane, hN, hM]

/-- Witness for C6 (amended): each of the 12 lane-dependence statements
instantiated at lane 0 of concrete vector pairs; the primed operands differ
from the unprimed ones at lane 1 but agree at lane 0. -/
theorem C6_lane_dependence_witness :
    vhadd_s8 (constVec 8 3) (constVec 8 1) 0 =
      vhadd_s8 (Function.update (constVec 8 3) 1 9) (constVec 8 1) 0 ∧
    vhadd_s16 (constVec 4 3) (constVec 4 1) 0 =
      vhadd_s16 (Function.update (constVec 4 3) 1 9) (constVec 4 1) 0 ∧
    vhadd_s32 (constVec 2 3) (constVec 2 1) 0 =
      vhadd_s32 (Function.update (constVec 2 3) 1 9) (constVec 2 1) 0 ∧
    vhadd_u8 (constVec 8 3) (constVec 8 1) 0 =
      vhadd_u8 (Function.update (constVec 8 3) 1 9) (constVec 8 1) 0 ∧
    vhadd_u16 (constVec 4 3) (constVec 4 1) 0 =
      vhadd_u16 (Function.update (constVec 4 3) 1 9) (constVec 4 1) 0 ∧
    vhadd_u32 (constVec 2 3) (constVec 2 1) 0 =
      vhadd_u32 (Function.update (constVec 2 3) 1 9) (constVec 2 1) 0 ∧
    vhaddq_s8 (constVec 16 3) (constVec 16 1) 0 =
      vhaddq_s8 (Function.update (constVec 16 3) 1 9) (constVec 16 1) 0 ∧
    vhaddq_s16 (constVec 8 3) (constVec 8 1) 0 =
      vhaddq_s16 (Function.update (constVec 8 3) 1 9) (constVec 8 1) 0 ∧
    vhaddq_s32 (constVec 4 3) (constVec 4 1) 0 =
      vhaddq_s32 (Function.update (constVec 4 3) 1 9) (constVec 4 1) 0 ∧
    vhaddq_u8 (constVec 16 3) (constVec 16 1) 0 =
      vhaddq_u8 (Function.update (constVec 16 3) 1 9) (constVec 16 1) 0 ∧
    vhaddq_u16 (constVec 8 3) (constVec 8 1) 0 =
      vhaddq_u16 (Function.update (constVec 8 3) 1 9) (constVec 8 1) 0 ∧
    vhaddq_u32 (constVec 4 3) (constVec 4 1) 0 =
      vhaddq_u32 (Function.update (constVec 4 3) 1 9) (constVec 4 1) 0 := by
  obtain ⟨h1, h2, h3, h4, h5, h6, h7, h8, h9, h10, h11, h12⟩ := C6_lane_dependence
  exact ⟨h1 _ _ _ _ 0 (by decide) (by decide), h2 _ _ _ _ 0 (by decide) (by decide),
    h3 _ _ _ _ 0 (by decide) (by decide), h4 _ _ _ _ 0 (by decide) (by decide),
    h5 _ _ _ _ 0 (by decide) (by decide), h6 _ _ _ _ 0 (by decide) (by decide),
    h7 _ _ _ _ 0 (by decide) (by decide), h8 _ _ _ _ 0 (by decide) (by decide),
    h9 _ _ _ _ 0 (by decide) (by decide), h10 _ _ _ _ 0 (by decide) (by decide),
    h11 _ _ _ _ 0 (by decide) (by decide), h12 _ _ _ _ 0 (by decide) (by decide)⟩

/-- C7: no dispatch entry mutates its operands.  In each entry's body the
operand copies `N` and `M` of the call state are only read: after the loop has
run they hold exactly the lane values they held on entry, and the returned
vector is the separately built result register `D` of the same shape. -/
theorem C7_no_input_mutation :
    (∀ N M : int8x8_t, (vhadd_s8_run N M).N = N ∧ (vhadd_s8_run N M).M = M) ∧
    (∀ N M : int16x4_t, (vhadd_s16_run N M).N = N ∧ (vhadd_s16_run N M).M = M) ∧
    (∀ N M : int32x2_t, (vhadd_s32_run N M).N = N ∧ (vhadd_s32_run N M).M = M) ∧
    (∀ N M : uint8x8_t, (vhadd_u8_run N M).N = N ∧ (vhadd_u8_run N M).M = M) ∧
    (∀ N M : uint16x4_t, (vhadd_u16_run N M).N = N ∧ (vhadd_u16_run N M).M = M) ∧
    (∀ N M : uint32x2_t, (vhadd_u32_run N M).N = N ∧ (vhadd_u32_run N M).M = M) ∧
    (∀ N M : int8x16_t, (vhaddq_s8_run N M).N = N ∧ (vhaddq_s8_run N M).M = M) ∧
    (∀ N M : int16x8_t, (vhaddq_s16_run N M).N = N ∧ (vhaddq_s16_run N M).M = M) ∧
    (∀ N M : int32x4_t, (vhaddq_s32_run N M).N = N ∧ (vhaddq_s32_run N M).M = M) ∧
    (∀ N M : uint8x16_t, (vhaddq_u8_run N M).N = N ∧ (vhaddq_u8_run N M).M = M) ∧
    (∀ N M : uint16x8_t, (vhaddq_u16_run N M).N = N ∧ (vhaddq_u16_run N M).M = M) ∧
    (∀ N M : uint32x4_t, (vhaddq_u32_run N M).N = N ∧ (vhaddq_u32_run N M).M = M) :=
  ⟨fun _ _ => ⟨vloop_N _ _, vloop_M _ _⟩, fun _ _ => ⟨vloop_N _ _, vloop_M _ _⟩,
   fun _ _ => ⟨vloop_N _ _, vloop_M _ _⟩, fun _ _ => ⟨vloop_N _ _, vloop_M _ _⟩,
   fun _ _ => ⟨vloop_N _ _, vloop_M _ _⟩, fun _ _ => ⟨vloop_N _ _, vloop_M _ _⟩,
   fun _ _ => ⟨vloop_N _ _, vloop_M _ _⟩, fun _ _ => ⟨vloop_N _ _, vloop_M _ _⟩,
   fun _ _ => ⟨vloop_N _ _, vloop_M _ _⟩, fun _ _ => ⟨vloop_N _ _, vloop_M _ _⟩,
   fun _ _ => ⟨vloop_N _ _, vloop_M _ _⟩, fun _ _ => ⟨vloop_N _ _, vloop_M _ _⟩⟩

/-- C8: the unsigned 32-bit entries compute
`((a + b) mod 2^32) >> 1` — the intermediate sum wraps in the lane's native
32-bit width before the logical shift — and at the in-domain input
`a = b = 2^32 - 1` this differs from the exact `floor((a + b) / 2)`. -/
theorem C8_u32_width_wrap :
    (∀ (N M : uint32x2_t) (i : Fin 2),
      vhadd_u32 N M i = ((N i + M i) % 2 ^ 32) / 2) ∧
    (∀ (N M : uint32x4_t) (i : Fin 4),
      vhaddq_u32 N M i = ((N i + M i) % 2 ^ 32) / 2) ∧
    vhadd_u32 (constVec 2 4294967295) (constVec 2 4294967295) 0 ≠
      (4294967295 + 4294967295) / 2 := by
  refine ⟨?_, ?_, by decide⟩
  · intro N M i
    rw [vhadd_u32_lane]
    exact hadd_u32_elem_eq _ _
  · intro N M i
    rw [vhaddq_u32_lane]
    exact hadd_u32_elem_eq _ _

/-- C9: for each of the 6 (elementWidth, signedness) domains, the 64-bit
entry and the 128-bit `q` entry compute the same per-lane function: at lanes
holding the same value pair they produce the same result. -/
theorem C9_d_q_same_lane_function :
    (∀ (N M : int8x8_t) (Q R : int8x16_t) (i : Fin 8) (j : Fin 16),
      N i = Q j → M i = R j → vhadd_s8 N M i = vhaddq_s8 Q R j) ∧
    (∀ (N M : int16x4_t) (Q R : int16x8_t) (i : Fin 4) (j : Fin 8),
      N i = Q j → M i = R j → vhadd_s16 N M i = vhaddq_s16 Q R j) ∧
    (∀ (N M : int32x2_t) (Q R : int32x4_t) (i : Fin 2) (j : Fin 4),
      N i = Q j → M i = R j → vhadd_s32 N M i = vhaddq_s32 Q R j) ∧
    (∀ (N M : uint8x8_t) (Q R : uint8x16_t) (i : Fin 8) (j : Fin 16),
      N i = Q j → M i = R j → vhadd_u8 N M i = vhaddq_u8 Q R j) ∧
    (∀ (N M : uint16x4_t) (Q R : uint16x8_t) (i : Fin 4) (j : Fin 8),
      N i = Q j → M i = R j → vhadd_u16 N M i = vhaddq_u16 Q R j) ∧
    (∀ (N M : uint32x2_t) (Q R : uint32x4_t) (i : Fin 2) (j : Fin 4),
      N i = Q j → M i = R j → vhadd_u32 N M i = vhaddq_u32 Q R j) := by
  refine ⟨?_, ?_, ?_, ?_, ?_, ?_⟩ <;>
    intro N M Q R i j hN hM
  · rw [vhadd_s8_lane, vhaddq_s8_lane, hN, hM]
  · rw [vhadd_s16_lane, vhaddq_s16_lane, hN, hM]
  · rw [vhadd_s32_lane, vhaddq_s32_lane, hN, hM]
  · rw [vhadd_u8_lane, vhaddq_u8_lane, hN, hM]
  · rw [vhadd_u16_lane, vhaddq_u16_lane, hN, hM]
  · rw [vhadd_u32_lane, vhaddq_u32_lane, hN, hM]

/-- Witness for C9: each of the 6 agreement statements instantiated at lane 0
of concrete constant vectors holding the same value pair. -/
theorem C9_d_q_same_lane_function_witness :
    vhadd_s8 (constVec 8 11) (constVec 8 (-4)) 0 =
      vhaddq_s8 (constVec 16 11) (constVec 16 (-4)) 0 ∧
    vhadd_s16 (constVec 4 11) (constVec 4 (-4)) 0 =
      vhaddq_s16 (constVec 8 11) (constVec 8 (-4)) 0 ∧
    vhadd_s32 (constVec 2 11) (constVec 2 (-4)) 0 =
      vhaddq_s32 (constVec 4 11) (constVec 4 (-4)) 0 ∧
    vhadd_u8 (constVec 8 11) (constVec 8 4) 0 =
      vhaddq_u8 (constVec 16 11) (constVec 16 4) 0 ∧
    vhadd_u16 (constVec 4 11) (constVec 4 4) 0 =
      vhaddq_u16 (constVec 8 11) (constVec 8 4) 0 ∧
    vhadd_u32 (constVec 2 11) (constVec 2 4) 0 =
      vhaddq_u32 (constVec 4 11) (constVec 4 4) 0 := by
  obtain ⟨h1, h2, h3, h4, h5, h6⟩ := C9_d_q_same_lane_function
  exact ⟨h1 _ _ _ _ 0 0 rfl rfl, h2 _ _ _ _ 0 0 rfl rfl, h3 _ _ _ _ 0 0 rfl rfl,
    h4 _ _ _ _ 0 0 rfl rfl, h5 _ _ _ _ 0 0 rfl rfl, h6 _ _ _ _ 0 0 rfl rfl⟩

/-- C10: every dispatch entry is commutative: swapping the two operand
vectors leaves every lane of the result unchanged. -/
theorem C10_commutative :
    (∀ (N M : int8x8_t) (i : Fin 8), vhadd_s8 N M i = vhadd_s8 M N i) ∧
    (∀ (N M : int16x4_t) (i : Fin 4), vhadd_s16 N M i = vhadd_s16 M N i) ∧
    (∀ (N M : int32x2_t) (i : Fin 2), vhadd_s32 N M i = vhadd_s32 M N i) ∧
    (∀ (N M : uint8x8_t) (i : Fin 8), vhadd_u8 N M i = vhadd_u8 M N i) ∧
    (∀ (N M : uint16x4_t) (i : Fin 4), vhadd_u16 N M i = vhadd_u16 M N i) ∧
    (∀ (N M : uint32x2_t) (i : Fin 2), vhadd_u32 N M i = vhadd_u32 M N i) ∧
    (∀ (N M : int8x16_t) (i : Fin 16), vhaddq_s8 N M i = vhaddq_s8 M N i) ∧
    (∀ (N M : int16x8_t) (i : Fin 8), vhaddq_s16 N M i = vhaddq_s16 M N i) ∧
    (∀ (N M : int32x4_t) (i : Fin 4), vhaddq_s32 N M i = vhaddq_s32 M N i) ∧
    (∀ (N M : uint8x16_t) (i : Fin 16), vhaddq_u8 N M i = vhaddq_u8 M N i) ∧
    (∀ (N M : uint16x8_t) (i : Fin 8), vhaddq_u16 N M i = vhaddq_u16 M N i) ∧
    (∀ (N M : uint32x4_t) (i : Fin 4), vhaddq_u32 N M i = vhaddq_u32 M N i) := by
  refine ⟨?_, ?_, ?_, ?_, ?_, ?_, ?_, ?_, ?_, ?_, ?_, ?_⟩ <;>
    intro N M i
  · rw [vhadd_s8_lane, vhadd_s8_lane, hadd_s8_elem_comm]
  · rw [vhadd_s16_lane, vhadd_s16_lane, hadd_s16_elem_comm]
  · rw [vhadd_s32_lane, vhadd_s32_lane, hadd_s32_elem_comm]
  · rw [vhadd_u8_lane, vhadd_u8_lane, hadd_u8_elem_comm]
  · rw [vhadd_u16_lane, vhadd_u16_lane, hadd_u16_elem_comm]
  · rw [vhadd_u32_lane, vhadd_u32_lane, hadd_u32_elem_comm]
  · rw [vhaddq_s8_lane, vhaddq_s8_lane, hadd_s8_elem_comm]
  · rw [vhaddq_s16_lane, vhaddq_s16_lane, hadd_s16_elem_comm]
  · rw [vhaddq_s32_lane, vhaddq_s32_lane, hadd_s32_elem_comm]
  · rw [vhaddq_u8_lane, vhaddq_u8_lane, hadd_u8_elem_comm]
  · rw [vhaddq_u16_lane, vhaddq_u16_lane, hadd_u16_elem_comm]
  · rw [vhaddq_u32_lane, vhaddq_u32_lane, hadd_u32_elem_comm]

end pxl
